import Mathlib

set_option maxRecDepth 100000

/-!
Verification of the GKE kubeconfig component (`src/gke_kubeconfig.py`).

The core logic is `GKEKubeconfig.__init__`: it validates a configuration
record (a Python dict) for the required keys `cluster_name`,
`cluster_endpoint`, `cluster_master_auth`, raising a `ValueError` naming all
missing keys at once, and then renders a kubeconfig document from the three
values with an f-string template, reading the `cluster_ca_certificate` key
out of the structured `cluster_master_auth` value inside the render step.

We embed the record, the validation scan, the error message, the render
template (byte for byte, including the 8-space indentation that the
triple-quoted f-string inherits from its position inside the method body and
the trailing line of 8 spaces before the closing quotes) and the staged
`build` pipeline as total Lean functions.
-/

/-- Python dict lookup over an association list of string keys and values:
`d[key]` returns the first binding of `key`, `none` when the key is absent
(Python raises `KeyError` there; callers of `pyGet` turn `none` into that
error). -/
def pyGet : List (String × String) → String → Option String
  | [], _ => none
  | (k, v) :: rest, key => if k = key then some v else pyGet rest key

/-- The configuration record passed to `GKEKubeconfig.__init__` (`args`).
The three keys the code reads are explicit fields; `none` covers both an
absent key and a key bound to Python `None`, which the validation treats
identically (`arg_name not in args or args[arg_name] is None`).
`cluster_master_auth` is a structured value, embedded as a dict.
`extra` holds any further top-level keys of the record; the code never
reads them. -/
structure GKEKubeconfigArgs where
  cluster_name : Option String
  cluster_endpoint : Option String
  cluster_master_auth : Option (List (String × String))
  extra : List (String × String)
deriving DecidableEq, Repr

/-- The fixed scan order of the validation loop:
`required_args = ["cluster_name", "cluster_endpoint", "cluster_master_auth"]`. -/
def required_args : List String :=
  ["cluster_name", "cluster_endpoint", "cluster_master_auth"]

/-- The per-attribute test of the validation loop:
`arg_name not in args or args[arg_name] is None`. -/
def argAbsentOrNone (args : GKEKubeconfigArgs) : String → Bool
  | "cluster_name" => args.cluster_name.isNone
  | "cluster_endpoint" => args.cluster_endpoint.isNone
  | "cluster_master_auth" => args.cluster_master_auth.isNone
  | _ => false

/-- The `missing_args` list collected by the validation loop: every required
attribute that is absent or null, in scan order; the loop never stops early. -/
def missing_args (args : GKEKubeconfigArgs) : List String :=
  required_args.filter (argAbsentOrNone args)

/-- The message of the `ValueError` raised when `missing_args` is non-empty. -/
def missingMessage (missing : List String) : String :=
  "Missing required arguments for GKEKubeconfig: " ++
    String.intercalate ", " missing ++
    ". All of the following arguments are required: " ++
    String.intercalate ", " required_args

/-- The ways a build can fail: the `ValueError` raised by validation, and the
`KeyError` raised by a dict subscript on a missing key. -/
inductive BuildError where
  | valueError (msg : String)
  | keyError (key : String)
deriving DecidableEq, Repr

/-- Template segment before the certificate value. The 8-space indentation on
every line after the first is inherited from the f-string's position inside
the method body of the source. -/
def seg0 : String :=
  "apiVersion: v1\n        clusters:\n        - cluster:\n            certificate-authority-data: "

/-- Template segment between the certificate value and the endpoint; ends in
the literal scheme prefix the endpoint is concatenated after. -/
def seg1 : String := "\n            server: https://"

/-- Template segment between the endpoint and the first name substitution. -/
def seg2 : String := "\n          name: "

/-- Template segment before the second name substitution (context cluster ref). -/
def seg3 : String := "\n        contexts:\n        - context:\n            cluster: "

/-- Template segment before the third name substitution (context user ref). -/
def seg4 : String := "\n            user: "

/-- Template segment before the fourth name substitution (context name). -/
def seg5 : String := "\n          name: "

/-- Template segment before the fifth name substitution (current-context). -/
def seg6 : String := "\n        current-context: "

/-- Template segment before the sixth name substitution (user name). -/
def seg7 : String :=
  "\n        kind: Config\n        preferences: \x7b\x7d\n        users:\n        - name: "

/-- Template tail after the sixth name substitution, ending with the trailing
line of 8 spaces that precedes the closing triple quote in the source. -/
def seg8 : String :=
  "\n          user:\n            exec:\n              apiVersion: client.authentication.k8s.io/v1beta1\n              command: gke-gcloud-auth-plugin\n              env: null\n              installHint: Install gke-gcloud-auth-plugin for use with kubectl by following\n                https://cloud.google.com/blog/products/containers-kubernetes/kubectl-auth-changes-in-gke\n              interactiveMode: IfAvailable\n              provideClusterInfo: true\n        "

/-- The f-string template of the source, as a function of the three
interpolated values (`args[0]` the name, `args[1]` the endpoint,
`args[2]['cluster_ca_certificate']` the certificate). -/
def render (name endpoint ca_certificate : String) : String :=
  seg0 ++ ca_certificate ++ seg1 ++ endpoint ++ seg2 ++ name ++ seg3 ++ name ++
    seg4 ++ name ++ seg5 ++ name ++ seg6 ++ name ++ seg7 ++ name ++ seg8

/-- Modelled from the spec: the rendering template of spec section 4.1, whose
lines carry no extra indentation (top-level keys at column 0), with a final
newline after the last line. Used only to compare the source's `render`
against the spec's stated output. -/
def specRender (name endpoint ca_certificate : String) : String :=
  "apiVersion: v1\nclusters:\n- cluster:\n    certificate-authority-data: " ++
    ca_certificate ++ "\n    server: https://" ++ endpoint ++ "\n  name: " ++
    name ++ "\ncontexts:\n- context:\n    cluster: " ++ name ++
    "\n    user: " ++ name ++ "\n  name: " ++ name ++ "\ncurrent-context: " ++
    name ++ "\nkind: Config\npreferences: \x7b\x7d\nusers:\n- name: " ++ name ++
    "\n  user:\n    exec:\n      apiVersion: client.authentication.k8s.io/v1beta1\n      command: gke-gcloud-auth-plugin\n      env: null\n      installHint: Install gke-gcloud-auth-plugin for use with kubectl by following\n        https://cloud.google.com/blog/products/containers-kubernetes/kubectl-auth-changes-in-gke\n      interactiveMode: IfAvailable\n      provideClusterInfo: true\n"

/-- Stage 1 of `__init__`: the validation scan. Raises the `ValueError` with
the full missing list when any required attribute is absent or null. -/
def validate (args : GKEKubeconfigArgs) : Except BuildError Unit :=
  if missing_args args = [] then Except.ok ()
  else Except.error (BuildError.valueError (missingMessage (missing_args args)))

/-- A dict subscript `args[key]` on the record: the value when present, a
`KeyError` naming the key when not. After validation this never fails. -/
def getArg (v : Option String) (key : String) : Except BuildError String :=
  match v with
  | some s => Except.ok s
  | none => Except.error (BuildError.keyError key)

/-- The subscript `args["cluster_master_auth"]` on the record. -/
def getAuth (v : Option (List (String × String))) :
    Except BuildError (List (String × String)) :=
  match v with
  | some ma => Except.ok ma
  | none => Except.error (BuildError.keyError "cluster_master_auth")

/-- Stage 2 of `__init__`: the lambda passed to `Output.all(...).apply`. It
subscripts the structured auth value for `cluster_ca_certificate` (a
`KeyError` when absent) and renders the template. -/
def renderLambda (name endpoint : String) (master_auth : List (String × String)) :
    Except BuildError String :=
  match pyGet master_auth "cluster_ca_certificate" with
  | some ca => Except.ok (render name endpoint ca)
  | none => Except.error (BuildError.keyError "cluster_ca_certificate")

/-- The whole construction: validate, read the three attributes, then run the
render step. The kubeconfig output exists only when every stage succeeds. -/
def build (args : GKEKubeconfigArgs) : Except BuildError String := do
  let _ ← validate args
  let name ← getArg args.cluster_name "cluster_name"
  let endpoint ← getArg args.cluster_endpoint "cluster_endpoint"
  let master_auth ← getAuth args.cluster_master_auth
  renderLambda name endpoint master_auth

/-- The structured-mode scenario record of the spec:
name `demo`, endpoint `h`, master auth mapping the certificate key to `X`. -/
def demoArgs : GKEKubeconfigArgs :=
  ⟨some "demo", some "h", some [("cluster_ca_certificate", "X")], []⟩

/-- Substring containment test: `pat` occurs somewhere in `s`. -/
def occursIn (pat : List Char) : List Char → Bool
  | [] => pat = []
  | c :: rest => List.isPrefixOf pat (c :: rest) || occursIn pat rest

/-- String version of `occursIn`. -/
def strContains (s pat : String) : Bool := occursIn pat.data s.data

/-- Number of positions of `s` at which the non-empty pattern `pat` starts. -/
def countOcc (pat : List Char) : List Char → Nat
  | [] => 0
  | c :: rest => (if List.isPrefixOf pat (c :: rest) then 1 else 0) + countOcc pat rest

/-- String version of `countOcc`. -/
def strCount (s pat : String) : Nat := countOcc pat.data s.data

/-- Characters of a line: everything up to the first newline. -/
def takeUntilNewline : List Char → List Char
  | [] => []
  | c :: rest => if c = '\n' then [] else c :: takeUntilNewline rest

/-- Remainder of `s` after the first occurrence of `marker`, when one exists. -/
def findAfter (marker : List Char) : List Char → Option (List Char)
  | [] => none
  | c :: rest =>
      if List.isPrefixOf marker (c :: rest) then some ((c :: rest).drop marker.length)
      else findAfter marker rest

/-- The value of the document's certificate field: the text between the first
`certificate-authority-data: ` marker and the following newline. -/
def certValue (doc : String) : Option String :=
  (findAfter ("certificate-authority-data: ".data) doc.data).map
    (fun l => String.mk (takeUntilNewline l))

/-- Split a character list into its newline-separated lines. -/
def splitLines : List Char → List (List Char)
  | [] => [[]]
  | c :: rest =>
      let ls := splitLines rest
      if c = '\n' then [] :: ls
      else match ls with
        | [] => [[c]]
        | l :: ls2 => (c :: l) :: ls2

/-- The lines of a document. -/
def docLines (doc : String) : List String := (splitLines doc.data).map String.mk

/-- String concatenation is associative (helper for rearranging template
decompositions). -/
theorem sapp_assoc (a b c : String) : a ++ b ++ c = a ++ (b ++ c) := by
  cases a; cases b; cases c
  show String.mk _ = String.mk _
  simp [String.append, List.append_assoc]

/-- With all three required attributes present, `build` reduces to the render
stage applied to the three values. -/
theorem build_full (n e : String) (ma extra : List (String × String)) :
    build ⟨some n, some e, some ma, extra⟩ = renderLambda n e ma := rfl

/-- A validation error is the result of the whole construction: the render
stage never runs after a failed validation. -/
theorem build_validate_error (args : GKEKubeconfigArgs) (e : BuildError)
    (h : validate args = Except.error e) : build args = Except.error e := by
  unfold build
  rw [h]
  rfl








/-- C1: in structured-auth mode, when `cluster_name`, `cluster_endpoint` and
`cluster_master_auth` are all present and non-null and the master auth
contains a `cluster_ca_certificate` field, the build succeeds; the document
carries the certificate value as-is immediately after the
`certificate-authority-data: ` marker (`seg0` ends in that marker) and the
endpoint directly after the literal `https://`; and in particular for the
inputs `demo`, `h`, `X` the certificate field of the output equals `X`. -/
theorem structuredBuild_inserts_values (n e ca : String)
    (ma extra : List (String × String))
    (h : pyGet ma "cluster_ca_certificate" = some ca) :
    build ⟨some n, some e, some ma, extra⟩ = Except.ok (render n e ca) ∧
    (∃ post, render n e ca = seg0 ++ ca ++ post) ∧
    (∃ pre post, render n e ca = pre ++ "https://" ++ e ++ post) ∧
    certValue (render "demo" "h" "X") = some "X" := by
  refine ⟨?_, ⟨?_, ?_, ?_⟩⟩
  · rw [build_full]
    simp only [renderLambda, h]
  · refine ⟨seg1 ++ e ++ seg2 ++ n ++ seg3 ++ n ++ seg4 ++ n ++ seg5 ++ n ++
      seg6 ++ n ++ seg7 ++ n ++ seg8, ?_⟩
    simp only [render, sapp_assoc]
  · refine ⟨seg0 ++ ca ++ "\n            server: ",
      seg2 ++ n ++ seg3 ++ n ++ seg4 ++ n ++ seg5 ++ n ++ seg6 ++ n ++ seg7 ++
        n ++ seg8, ?_⟩
    have hseg : ("\n            server: " : String) ++ "https://" = seg1 := rfl
    simp only [render, sapp_assoc]
    rw [← sapp_assoc ("\n            server: " : String) "https://", hseg]
  · decide

/-- Witness for C1 at the spec's structured-mode scenario inputs. -/
theorem structuredBuild_inserts_values_witness :
    pyGet [("cluster_ca_certificate", "X")] "cluster_ca_certificate" = some "X" ∧
    (build ⟨some "demo", some "h", some [("cluster_ca_certificate", "X")], []⟩ =
        Except.ok (render "demo" "h" "X") ∧
      (∃ post, render "demo" "h" "X" = seg0 ++ "X" ++ post) ∧
      (∃ pre post, render "demo" "h" "X" = pre ++ "https://" ++ "h" ++ post) ∧
      certValue (render "demo" "h" "X") = some "X") :=
  ⟨rfl, structuredBuild_inserts_values "demo" "h" "X"
    [("cluster_ca_certificate", "X")] [] rfl⟩

/-- C2: the document the code renders does not equal the dedented template of
the spec byte for byte: every line after the first carries the 8-space
indentation the triple-quoted f-string inherits from the method body (the
rendered output contains an indented `clusters:` line where the spec template
has it at column 0), so the claimed byte-for-byte equality fails. -/
theorem render_diverges_from_spec_template :
    build demoArgs = Except.ok (render "demo" "h" "X") ∧
    render "demo" "h" "X" ≠ specRender "demo" "h" "X" ∧
    strContains (render "demo" "h" "X") "\n        clusters:" = true ∧
    strContains (render "demo" "h" "X") "\nclusters:" = false ∧
    strContains (specRender "demo" "h" "X") "\nclusters:" = true :=
  ⟨rfl, by decide, by decide, by decide, by decide⟩

/-- C3: whenever at least one required attribute is absent or null, the build
fails with a single `ValueError` whose message names every missing attribute,
comma-joined in the fixed scan order, and restates the full required list;
an attribute is in the missing list exactly when it is required and absent
or null, so the scan does not stop at the first failure. -/
theorem build_missing_reports_all (args : GKEKubeconfigArgs)
    (h : ¬ missing_args args = []) :
    build args = Except.error (BuildError.valueError
      ("Missing required arguments for GKEKubeconfig: " ++
        String.intercalate ", " (missing_args args) ++
        ". All of the following arguments are required: cluster_name, cluster_endpoint, cluster_master_auth")) ∧
    (∀ s, s ∈ missing_args args ↔
      (s ∈ required_args ∧ argAbsentOrNone args s = true)) := by
  constructor
  · have hv : validate args =
        Except.error (BuildError.valueError (missingMessage (missing_args args))) := by
      simp [validate, h]
    rw [build_validate_error args _ hv]
    unfold missingMessage
    rw [sapp_assoc]
    rfl
  · intro s
    simp [missing_args, List.mem_filter]

/-- Witness for C3 at a record missing `cluster_endpoint` and
`cluster_master_auth`. -/
theorem build_missing_reports_all_witness :
    ¬ missing_args ⟨some "demo", none, none, []⟩ = [] ∧
    (build ⟨some "demo", none, none, []⟩ = Except.error (BuildError.valueError
      ("Missing required arguments for GKEKubeconfig: " ++
        String.intercalate ", " (missing_args ⟨some "demo", none, none, []⟩) ++
        ". All of the following arguments are required: cluster_name, cluster_endpoint, cluster_master_auth")) ∧
    (∀ s, s ∈ missing_args ⟨some "demo", none, none, []⟩ ↔
      (s ∈ required_args ∧
        argAbsentOrNone ⟨some "demo", none, none, []⟩ s = true))) :=
  ⟨by decide, build_missing_reports_all ⟨some "demo", none, none, []⟩ (by decide)⟩

/-- C4 counterexample: there is no direct-certificate mode in the code. The
input with `cluster_name`, `cluster_endpoint` and a top-level
`cluster_ca_certificate` key but no `cluster_master_auth` does not build
successfully: validation rejects it for the missing `cluster_master_auth`,
so the claimed successful build with the stated output does not happen. -/
theorem direct_certificate_input_rejected :
    build ⟨some "demo", some "10.0.0.1", none,
        [("cluster_ca_certificate", "QkFTRTY0")]⟩ =
      Except.error (BuildError.valueError
        "Missing required arguments for GKEKubeconfig: cluster_master_auth. All of the following arguments are required: cluster_name, cluster_endpoint, cluster_master_auth") :=
  rfl

/-- C4 amended: the required set is always
`cluster_name, cluster_endpoint, cluster_master_auth`; the direct-certificate
input fails naming `cluster_master_auth`, while the structured-auth
equivalent of the scenario succeeds and its document carries the lines
`current-context: demo`, `server: https://10.0.0.1` and
`certificate-authority-data: QkFTRTY0`. -/
theorem direct_input_fails_structured_equivalent_succeeds :
    build ⟨some "demo", some "10.0.0.1", none,
        [("cluster_ca_certificate", "QkFTRTY0")]⟩ =
      Except.error (BuildError.valueError
        (missingMessage ["cluster_master_auth"])) ∧
    build ⟨some "demo", some "10.0.0.1",
        some [("cluster_ca_certificate", "QkFTRTY0")], []⟩ =
      Except.ok (render "demo" "10.0.0.1" "QkFTRTY0") ∧
    strContains (render "demo" "10.0.0.1" "QkFTRTY0")
      "current-context: demo\n" = true ∧
    strContains (render "demo" "10.0.0.1" "QkFTRTY0")
      "server: https://10.0.0.1\n" = true ∧
    strContains (render "demo" "10.0.0.1" "QkFTRTY0")
      "certificate-authority-data: QkFTRTY0\n" = true :=
  ⟨rfl, rfl, by decide, by decide, by decide⟩

/-- C5 counterexample: on the structured-mode scenario input the build
succeeds but the document does not contain exactly five occurrences of the
literal cluster name: the template substitutes the name six times. -/
theorem render_demo_name_count_not_five :
    build demoArgs = Except.ok (render "demo" "h" "X") ∧
    ¬ strCount (render "demo" "h" "X") "demo" = 5 :=
  ⟨rfl, by decide⟩

/-- C5 amended: the template substitutes the cluster name at six sites
(cluster name, context cluster ref, context user ref, context name,
current-context, user name) and the endpoint at exactly one site, directly
after the literal `https://`; on the representative scenario input the
document contains exactly six occurrences of `demo` and exactly one
occurrence of `https://h`. -/
theorem render_substitutes_name_six_times :
    (∀ n e c, render n e c = seg0 ++ c ++ seg1 ++ e ++ seg2 ++ n ++ seg3 ++
      n ++ seg4 ++ n ++ seg5 ++ n ++ seg6 ++ n ++ seg7 ++ n ++ seg8) ∧
    strCount (render "demo" "h" "X") "demo" = 6 ∧
    strCount (render "demo" "h" "X") "https://h" = 1 :=
  ⟨fun _ _ _ => rfl, by decide, by decide⟩

/-- C6: the successful build's output is not a parseable top-level YAML
mapping: its first line is `apiVersion: v1`, but every later line starts
with a space (the 8-space f-string indentation), so none of the claimed
keys `clusters`, `contexts`, `current-context`, `kind`, `preferences`,
`users` appears at column 0 as a sibling top-level key. -/
theorem rendered_document_lines_indented :
    build demoArgs = Except.ok (render "demo" "h" "X") ∧
    (docLines (render "demo" "h" "X")).head? = some "apiVersion: v1" ∧
    ((docLines (render "demo" "h" "X")).tail.all
      (fun l => List.isPrefixOf [' '] l.data)) = true ∧
    strContains (render "demo" "h" "X") "\nclusters:" = false :=
  ⟨rfl, by decide, by decide, by decide⟩

/-- C7: construction is all-or-nothing. A validation error is the result of
the whole construction (the render stage never runs), and any successful
construction returns the complete rendered document for the three attribute
values, whose certificate was found in the structured auth value. -/
theorem build_all_or_nothing (args : GKEKubeconfigArgs) :
    (∀ e, validate args = Except.error e → build args = Except.error e) ∧
    (∀ doc, build args = Except.ok doc →
      ∃ n ep ma ca, args.cluster_name = some n ∧
        args.cluster_endpoint = some ep ∧
        args.cluster_master_auth = some ma ∧
        pyGet ma "cluster_ca_certificate" = some ca ∧
        doc = render n ep ca) := by
  constructor
  · intro e he
    exact build_validate_error args e he
  · intro doc hd
    by_cases hm : missing_args args = []
    · have hv : validate args = Except.ok () := by simp [validate, hm]
      rcases hn : args.cluster_name with _ | n
      · have hb : build args = Except.error (BuildError.keyError "cluster_name") := by
          unfold build
          rw [hv, hn]
          rfl
        rw [hb] at hd
        exact Except.noConfusion hd
      · rcases he : args.cluster_endpoint with _ | ep
        · have hb : build args = Except.error (BuildError.keyError "cluster_endpoint") := by
            unfold build
            rw [hv, hn, he]
            rfl
          rw [hb] at hd
          exact Except.noConfusion hd
        · rcases ha : args.cluster_master_auth with _ | ma
          · have hb : build args = Except.error (BuildError.keyError "cluster_master_auth") := by
              unfold build
              rw [hv, hn, he, ha]
              rfl
            rw [hb] at hd
            exact Except.noConfusion hd
          · rcases hca : pyGet ma "cluster_ca_certificate" with _ | ca
            · have hb : build args =
                  Except.error (BuildError.keyError "cluster_ca_certificate") := by
                unfold build
                rw [hv, hn, he, ha]
                show renderLambda n ep ma = _
                simp only [renderLambda, hca]
              rw [hb] at hd
              exact Except.noConfusion hd
            · have hb : build args = Except.ok (render n ep ca) := by
                unfold build
                rw [hv, hn, he, ha]
                show renderLambda n ep ma = _
                simp only [renderLambda, hca]
              rw [hb] at hd
              injection hd with hdoc
              exact ⟨n, ep, ma, ca, rfl, rfl, rfl, hca, hdoc.symm⟩
    · have hv : validate args =
          Except.error (BuildError.valueError (missingMessage (missing_args args))) := by
        simp [validate, hm]
      rw [build_validate_error args _ hv] at hd
      exact Except.noConfusion hd

/-- Witness for C7 at the record with every required attribute absent. -/
theorem build_all_or_nothing_witness :
    build ⟨none, none, none, []⟩ = Except.error (BuildError.valueError
      (missingMessage ["cluster_name", "cluster_endpoint", "cluster_master_auth"])) :=
  (build_all_or_nothing ⟨none, none, none, []⟩).1 _ rfl

/-- C8: when `cluster_master_auth` is present but lacks the nested
`cluster_ca_certificate` key, the presence scan reports nothing missing
(in particular it does not report `cluster_master_auth`), validation
succeeds, and the failure is the distinct second-stage `KeyError` raised
when the render step subscripts the nested key. -/
theorem nested_key_second_stage (n e : String)
    (ma extra : List (String × String))
    (h : pyGet ma "cluster_ca_certificate" = none) :
    missing_args ⟨some n, some e, some ma, extra⟩ = [] ∧
    "cluster_master_auth" ∉ missing_args ⟨some n, some e, some ma, extra⟩ ∧
    validate ⟨some n, some e, some ma, extra⟩ = Except.ok () ∧
    build ⟨some n, some e, some ma, extra⟩ =
      Except.error (BuildError.keyError "cluster_ca_certificate") := by
  have h0 : missing_args ⟨some n, some e, some ma, extra⟩ = [] := rfl
  refine ⟨h0, ?_, rfl, ?_⟩
  · rw [h0]
    exact List.not_mem_nil _
  · rw [build_full]
    simp only [renderLambda, h]

/-- Witness for C8 at a structured auth value without the certificate key. -/
theorem nested_key_second_stage_witness :
    pyGet [("other", "y")] "cluster_ca_certificate" = none ∧
    (missing_args ⟨some "demo", some "h", some [("other", "y")], []⟩ = [] ∧
    "cluster_master_auth" ∉
      missing_args ⟨some "demo", some "h", some [("other", "y")], []⟩ ∧
    validate ⟨some "demo", some "h", some [("other", "y")], []⟩ = Except.ok () ∧
    build ⟨some "demo", some "h", some [("other", "y")], []⟩ =
      Except.error (BuildError.keyError "cluster_ca_certificate")) :=
  ⟨rfl, nested_key_second_stage "demo" "h" [("other", "y")] [] rfl⟩

/-- C9: the construction is a pure function of the input record: equal
records give the same result, so two builds on identical inputs yield
byte-identical documents. In the embedding `build` reads nothing but the
record, matching the source's render closure, which reads only its three
arguments. -/
theorem build_deterministic (a b : GKEKubeconfigArgs) (h : a = b) :
    build a = build b := by
  rw [h]

/-- Witness for C9 at the structured-mode scenario record. -/
theorem build_deterministic_witness : build demoArgs = build demoArgs :=
  build_deterministic demoArgs demoArgs rfl

/-- C10: the output depends only on the cluster name, the endpoint and the
`cluster_ca_certificate` field of the structured auth value: two records
agreeing on those three build identically, whatever extra top-level keys
(including a top-level `cluster_ca_certificate`, which is never read) and
whatever other fields inside `cluster_master_auth` they carry. -/
theorem build_depends_only_on_used_fields (n e : String)
    (ma1 ma2 extra1 extra2 : List (String × String))
    (h : pyGet ma1 "cluster_ca_certificate" = pyGet ma2 "cluster_ca_certificate") :
    build ⟨some n, some e, some ma1, extra1⟩ =
      build ⟨some n, some e, some ma2, extra2⟩ := by
  rw [build_full, build_full]
  unfold renderLambda
  rw [h]

/-- Witness for C10: extra master-auth fields and an ignored top-level
`cluster_ca_certificate` key do not change the result. -/
theorem build_depends_only_on_used_fields_witness :
    pyGet [("cluster_ca_certificate", "X"), ("client_certificate", "cc")]
        "cluster_ca_certificate" =
      pyGet [("cluster_ca_certificate", "X")] "cluster_ca_certificate" ∧
    build ⟨some "demo", some "h",
        some [("cluster_ca_certificate", "X"), ("client_certificate", "cc")],
        [("cluster_ca_certificate", "IGNORED")]⟩ =
      build ⟨some "demo", some "h", some [("cluster_ca_certificate", "X")], []⟩ :=
  ⟨rfl, build_depends_only_on_used_fields "demo" "h"
    [("cluster_ca_certificate", "X"), ("client_certificate", "cc")]
    [("cluster_ca_certificate", "X")]
    [("cluster_ca_certificate", "IGNORED")] [] rfl⟩
